import Mathlib

/-!
# ESP32 sensor / relay firmware (`esp32/src/main.cpp`)

A shallow embedding of the sketch: the two relay outputs, the `autoMode`
flag, `lastSendTime` and the frames handed to `webSocket.sendTXT` form the
state; sensor values, the clock, inbound WebSocket events and `millis()`
readings are inputs.  `Serial` output is diagnostic only and is not part of
the state.
-/

namespace Esp32

/-! ## Configuration constants -/

def DHT_PIN : Nat := 25
def LDR_PIN : Nat := 26
def RELAY_LIGHT : Nat := 27
def RELAY_FAN : Nat := 14

/-- Arduino pin level `HIGH`. -/
def HIGH : Int := 1
/-- Arduino pin level `LOW`. -/
def LOW : Int := 0

/-- The constant `sendInterval` (milliseconds). -/
def sendInterval : Nat := 3000

/-- Number of values of an `unsigned long` on the ESP32 (32 bits). -/
def ULONG_RANGE : Nat := 2 ^ 32

/-! ## State -/

/-- The mutable state of the sketch.  `light` and `fan` are the levels driven
on `RELAY_LIGHT` and `RELAY_FAN`; `sent` lists the arguments of every
`webSocket.sendTXT` call, oldest first. -/
structure State where
  light : Bool
  fan : Bool
  autoMode : Bool
  lastSendTime : Nat
  sent : List String
  deriving DecidableEq, Repr

/-- The call `digitalWrite(pin, val)`: drives an output pin; only the two relay
pins are part of the state. -/
def digitalWrite (pin : Nat) (val : Int) (s : State) : State :=
  if pin = RELAY_LIGHT then { s with light := decide (val ≠ LOW) }
  else if pin = RELAY_FAN then { s with fan := decide (val ≠ LOW) }
  else s

/-- The call `webSocket.sendTXT(frame)`. -/
def sendTXT (frame : String) (s : State) : State :=
  { s with sent := s.sent ++ [frame] }

/-- Globals as initialised at lines 26-28, relay pins not yet driven. -/
def powerOn : State :=
  { light := false, fan := false, autoMode := false, lastSendTime := 0, sent := [] }

/-- The state effect of `setup()`: both relays are driven `LOW`. -/
def setup : State :=
  digitalWrite RELAY_FAN LOW (digitalWrite RELAY_LIGHT LOW powerOn)

/-! ## Clock -/

/-- The fields of `struct tm` that the format string of `getCurrentTime`
reads (`tm_year` counts from 1900, `tm_mon` from 0). -/
structure tm where
  tm_sec : Nat
  tm_min : Nat
  tm_hour : Nat
  tm_mday : Nat
  tm_mon : Nat
  tm_year : Nat
  deriving DecidableEq, Repr

/-- Two-digit, zero-padded decimal (`%m`, `%d`, `%H`, `%M`, `%S`). -/
def pad2 (n : Nat) : String :=
  if n < 10 then "0" ++ toString n else toString n

/-- The call `strftime(buffer, sizeof(buffer), "%Y-%m-%d %H:%M:%S", &timeinfo)`. -/
def strftime (t : tm) : String :=
  toString (t.tm_year + 1900) ++ "-" ++ pad2 (t.tm_mon + 1) ++ "-" ++ pad2 t.tm_mday
    ++ " " ++ pad2 t.tm_hour ++ ":" ++ pad2 t.tm_min ++ ":" ++ pad2 t.tm_sec

/-- The function `getCurrentTime()`; the argument is what `getLocalTime` delivers:
`none` when it returns `false`, the filled `timeinfo` otherwise. -/
def getCurrentTime (localTime : Option tm) : String :=
  match localTime with
  | none => "unknown"
  | some timeinfo => strftime timeinfo

/-! ## Sensor values -/

/-- The two operations of the C++ `float` type that `sendSensorData` uses:
`isnan(x)` and the Arduino constructor `String(x, decimalPlaces)`. -/
structure FloatLib (F : Type) where
  isnan : F → Bool
  mkString : F → Nat → String

/-- What one call of `sendSensorData` reads from its surroundings:
`dht.readTemperature()`, `dht.readHumidity()`, `digitalRead(LDR_PIN)` and the
outcome of `getLocalTime` inside the `getCurrentTime()` call of line 127. -/
structure SensorInput (F : Type) where
  temperature : F
  humidity : F
  lightRaw : Int
  localTime : Option tm

/-- The function `sendSensorData()`.  The last argument of the `Serial.printf`
of lines 133-138 is the call `digitalWrite(RELAY_FAN, HIGH)`, which is
evaluated whenever the line is reached. -/
def sendSensorData {F : Type} (fl : FloatLib F) (inp : SensorInput F) (s : State) : State :=
  let temperature := inp.temperature
  let humidity := inp.humidity
  let lightRaw := inp.lightRaw
  let isDark : Bool := decide (lightRaw = HIGH)
  if fl.isnan temperature || fl.isnan humidity then
    s
  else
    let jsonData := "\x7b"
    let jsonData := jsonData ++ ("\"temperature\":" ++ fl.mkString temperature 1 ++ ",")
    let jsonData := jsonData ++ ("\"humidity\":" ++ fl.mkString humidity 1 ++ ",")
    let jsonData := jsonData ++ ("\"light\":" ++ toString (if isDark then 1 else 0 : Nat) ++ ",")
    let jsonData := jsonData ++ ("\"timestamp\":\"" ++ getCurrentTime inp.localTime ++ "\"")
    let jsonData := jsonData ++ "\x7d"
    let s := sendTXT jsonData s
    digitalWrite RELAY_FAN HIGH s

/-! ## Inbound events -/

/-- The event kinds of the WebSockets library (`WStype_t`). -/
inductive WStype_t where
  | WStype_ERROR
  | WStype_DISCONNECTED
  | WStype_CONNECTED
  | WStype_TEXT
  | WStype_BIN
  | WStype_FRAGMENT_TEXT_START
  | WStype_FRAGMENT_BIN_START
  | WStype_FRAGMENT
  | WStype_FRAGMENT_FIN
  | WStype_PING
  | WStype_PONG
  deriving DecidableEq, Repr

/-- The conversion `String((char*)payload)`: the characters of the payload up to,
not including, its first NUL. -/
def cString (payload : String) : String :=
  String.mk (payload.data.takeWhile (fun c => c ≠ Char.ofNat 0))

/-- The callback `webSocketEvent(type, payload, length)`; `length` is never read
by the body. -/
def webSocketEvent (type : WStype_t) (payload : String) (s : State) : State :=
  match type with
  | .WStype_DISCONNECTED => s
  | .WStype_CONNECTED => sendTXT "ESP32_CONNECTED" s
  | .WStype_TEXT =>
    let message := cString payload
    if message = "AUTO_ON" then { s with autoMode := true }
    else if message = "AUTO_OFF" then { s with autoMode := false }
    else if message = "LIGHT_ON" then digitalWrite RELAY_LIGHT HIGH s
    else if message = "LIGHT_OFF" then digitalWrite RELAY_LIGHT LOW s
    else if message = "FAN_ON" then digitalWrite RELAY_FAN HIGH s
    else if message = "FAN_OFF" then digitalWrite RELAY_FAN LOW s
    else s
  | .WStype_ERROR => s
  | _ => s

/-! ## Main loop -/

/-- What one pass through `loop()` reads from its surroundings: the events that
`webSocket.loop()` delivers to the callback (in arrival order), the `millis()`
value read in the condition of line 92, the sensor input of `sendSensorData`
and the `millis()` value read at line 94.  The last two are consulted only
when the condition holds.  `millis()` returns an `unsigned long`, a value
below `ULONG_RANGE`. -/
structure Tick (F : Type) where
  events : List (WStype_t × String)
  millisGate : Nat
  input : SensorInput F
  millisAfter : Nat

/-- The call `webSocket.loop()`: every pending event goes through `webSocketEvent`. -/
def webSocket_loop (events : List (WStype_t × String)) (s : State) : State :=
  events.foldl (fun acc e => webSocketEvent e.1 e.2 acc) s

/-- The condition `millis() - lastSendTime >= sendInterval` of line 92, the
subtraction being the one of `unsigned long`. -/
def gateOpen (now lastSendTime : Nat) : Bool :=
  decide (sendInterval ≤ (now + ULONG_RANGE - lastSendTime) % ULONG_RANGE)

/-- One pass through `loop()`.  The WiFi check of lines 86-90 touches no part of
the state. -/
def loop {F : Type} (fl : FloatLib F) (t : Tick F) (s : State) : State :=
  let s := webSocket_loop t.events s
  if gateOpen t.millisGate s.lastSendTime then
    let s := sendSensorData fl t.input s
    { s with lastSendTime := t.millisAfter }
  else
    s

/-- Consecutive passes through `loop()`. -/
def run {F : Type} (fl : FloatLib F) : List (Tick F) → State → State
  | [], s => s
  | t :: ts, s => run fl ts (loop fl t s)

/-- Whether the pass `t`, started in state `s`, reaches the call of
`sendSensorData` (line 93). -/
def fires {F : Type} (t : Tick F) (s : State) : Bool :=
  gateOpen t.millisGate (webSocket_loop t.events s).lastSendTime

/-- The `millis()` readings taken during the passes, in order. -/
def readings {F : Type} (fl : FloatLib F) : List (Tick F) → State → List Nat
  | [], _ => []
  | t :: ts, s =>
    if fires t s then t.millisGate :: t.millisAfter :: readings fl ts (loop fl t s)
    else t.millisGate :: readings fl ts (loop fl t s)

/-- The `millis()` readings at which `sendSensorData` is called: for each pass
that reaches line 93, the value read in the condition just before. -/
def sendTimes {F : Type} (fl : FloatLib F) : List (Tick F) → State → List Nat
  | [], _ => []
  | t :: ts, s =>
    if fires t s then t.millisGate :: sendTimes fl ts (loop fl t s)
    else sendTimes fl ts (loop fl t s)

/-- Dispatching a sequence of text messages, one `WStype_TEXT` event each. -/
def dispatchAll (messages : List String) (s : State) : State :=
  messages.foldl (fun acc m => webSocketEvent .WStype_TEXT m acc) s

/-- Milliseconds from the first to the last `millis()` reading of the passes. -/
def span {F : Type} (fl : FloatLib F) (ticks : List (Tick F)) (s : State) : Nat :=
  (readings fl ticks s).getLast?.getD 0 - (readings fl ticks s).head?.getD 0

/-! ## A concrete reading type -/

/-- Modelled from the spec: a sensor value as the telemetry frame shows it,
either not-a-number or a number with one decimal place, held in tenths
(`tenths 245` is 24.5). -/
inductive Decimal1 where
  | nan
  | tenths (v : Int)
  deriving DecidableEq, Repr

/-- Modelled from the spec: the rendering `String(x, decimalPlaces)` on `Decimal1`;
with one decimal place it gives sign, whole part, a point and one digit. -/
def Decimal1.mkString (x : Decimal1) (decimalPlaces : Nat) : String :=
  match x with
  | .nan => "nan"
  | .tenths v =>
    let sign := if v < 0 then "-" else ""
    let a := v.natAbs
    if decimalPlaces = 0 then sign ++ toString ((a + 5) / 10)
    else sign ++ toString (a / 10) ++ "." ++ toString (a % 10)
      ++ String.mk (List.replicate (decimalPlaces - 1) (Char.ofNat 48))

/-- Modelled from the spec: `isnan` and `String(x, n)` on `Decimal1`. -/
def decimalLib : FloatLib Decimal1 where
  isnan := fun x => decide (x = Decimal1.nan)
  mkString := Decimal1.mkString

/-- The six command tokens. -/
def commandTokens : List String :=
  ["AUTO_ON", "AUTO_OFF", "LIGHT_ON", "LIGHT_OFF", "FAN_ON", "FAN_OFF"]

/-- A reading of 24.5 degrees and 61.2 percent with the light pin `HIGH`. -/
def sampleInput (localTime : Option tm) : SensorInput Decimal1 :=
  { temperature := .tenths 245, humidity := .tenths 612, lightRaw := HIGH, localTime := localTime }

/-- Six passes after `setup()`, about a second apart, no inbound events. -/
def steadyTicks : List (Tick Decimal1) :=
  [⟨[], 3000, sampleInput none, 3040⟩, ⟨[], 4000, sampleInput none, 4000⟩,
   ⟨[], 5000, sampleInput none, 5000⟩, ⟨[], 6000, sampleInput none, 6000⟩,
   ⟨[], 7000, sampleInput none, 7040⟩, ⟨[], 10040, sampleInput none, 10080⟩]

/-- Four passes after `setup()`, about three seconds apart, no inbound events. -/
def sparseTicks : List (Tick Decimal1) :=
  [⟨[], 3500, sampleInput none, 3600⟩, ⟨[], 6599, sampleInput none, 6600⟩,
   ⟨[], 9598, sampleInput none, 9700⟩, ⟨[], 12500, sampleInput none, 12500⟩]

/-- Fifteen passes after `setup()`, half a second apart, no inbound events. -/
def denseTicks : List (Tick Decimal1) :=
  (List.range 15).map
    (fun i => ⟨[], 3000 + 500 * i, sampleInput none, 3020 + 500 * i⟩)

end Esp32

namespace Esp32

set_option maxRecDepth 100000

/-! ## Basic facts about the operations -/

theorem sendSensorData_of_nan {F : Type} (fl : FloatLib F) (inp : SensorInput F) (s : State)
    (h : (fl.isnan inp.temperature || fl.isnan inp.humidity) = true) :
    sendSensorData fl inp s = s := by
  unfold sendSensorData
  simp only [h, if_true]

theorem sendSensorData_of_valid {F : Type} (fl : FloatLib F) (inp : SensorInput F) (s : State)
    (h : (fl.isnan inp.temperature || fl.isnan inp.humidity) = false) :
    sendSensorData fl inp s =
      digitalWrite RELAY_FAN HIGH (sendTXT
        ("\x7b\"temperature\":" ++ fl.mkString inp.temperature 1 ++ ",\"humidity\":"
          ++ fl.mkString inp.humidity 1 ++ ",\"light\":"
          ++ (if inp.lightRaw = HIGH then "1" else "0") ++ ",\"timestamp\":\""
          ++ getCurrentTime inp.localTime ++ "\"\x7d") s) := by
  unfold sendSensorData
  simp only [h, Bool.false_eq_true, if_false]
  congr 2
  by_cases hl : inp.lightRaw = HIGH
  · simp only [hl, decide_True, if_true, String.append_assoc]
    rfl
  · simp only [hl, decide_False, if_false, String.append_assoc, Bool.false_eq_true]
    rfl

theorem digitalWrite_sent (pin : Nat) (val : Int) (s : State) :
    (digitalWrite pin val s).sent = s.sent := by
  unfold digitalWrite
  split_ifs <;> rfl

theorem digitalWrite_lastSendTime (pin : Nat) (val : Int) (s : State) :
    (digitalWrite pin val s).lastSendTime = s.lastSendTime := by
  unfold digitalWrite
  split_ifs <;> rfl

theorem sendSensorData_valid_sent {F : Type} (fl : FloatLib F) (inp : SensorInput F)
    (s : State) (ht : fl.isnan inp.temperature = false) (hh : fl.isnan inp.humidity = false) :
    (sendSensorData fl inp s).sent = s.sent ++
      ["\x7b\"temperature\":" ++ fl.mkString inp.temperature 1 ++ ",\"humidity\":"
        ++ fl.mkString inp.humidity 1 ++ ",\"light\":"
        ++ (if inp.lightRaw = HIGH then "1" else "0") ++ ",\"timestamp\":\""
        ++ getCurrentTime inp.localTime ++ "\"\x7d"] := by
  rw [sendSensorData_of_valid fl inp s (by simp [ht, hh]), digitalWrite_sent]
  rfl

/-! ## Telemetry emission -/

/-- C1: when the temperature reading or the humidity reading is not-a-number,
`sendSensorData` hands nothing to `webSocket.sendTXT`, whatever the light pin
level, the clock and the state are: the list of sent frames is as before. -/
theorem sendSensorData_nan_no_frame {F : Type} (fl : FloatLib F) (inp : SensorInput F)
    (s : State) (h : fl.isnan inp.temperature = true ∨ fl.isnan inp.humidity = true) :
    (sendSensorData fl inp s).sent = s.sent := by
  rw [sendSensorData_of_nan fl inp s (by simpa using h)]

theorem sendSensorData_nan_no_frame_witness :
    (decimalLib.isnan Decimal1.nan = true ∨ decimalLib.isnan (Decimal1.tenths 612) = true) ∧
    (sendSensorData decimalLib
      { temperature := Decimal1.nan, humidity := Decimal1.tenths 612, lightRaw := HIGH,
        localTime := none } setup).sent = setup.sent :=
  ⟨Or.inl (by decide), sendSensorData_nan_no_frame decimalLib _ setup (Or.inl (by decide))⟩

/-- C2: for a valid reading (neither value not-a-number) `sendSensorData` hands
exactly one frame to `webSocket.sendTXT`, and the frame is
`{"temperature":T,"humidity":H,"light":L,"timestamp":"TS"}` in this order, with
`T` and `H` the values rendered by `String(x, 1)`, `L` equal to 1 when the light
pin reads `HIGH` and 0 otherwise, and `TS` the result of `getCurrentTime()`. -/
theorem sendSensorData_valid_one_frame {F : Type} (fl : FloatLib F) (inp : SensorInput F)
    (s : State) (ht : fl.isnan inp.temperature = false) (hh : fl.isnan inp.humidity = false) :
    (sendSensorData fl inp s).sent = s.sent ++
      ["\x7b\"temperature\":" ++ fl.mkString inp.temperature 1 ++ ",\"humidity\":"
        ++ fl.mkString inp.humidity 1 ++ ",\"light\":"
        ++ (if inp.lightRaw = HIGH then "1" else "0") ++ ",\"timestamp\":\""
        ++ getCurrentTime inp.localTime ++ "\"\x7d"] :=
  sendSensorData_valid_sent fl inp s ht hh

theorem sendSensorData_valid_one_frame_witness :
    decimalLib.isnan (sampleInput (some ⟨5, 4, 3, 2, 0, 125⟩)).temperature = false ∧
    decimalLib.isnan (sampleInput (some ⟨5, 4, 3, 2, 0, 125⟩)).humidity = false ∧
    (sendSensorData decimalLib (sampleInput (some ⟨5, 4, 3, 2, 0, 125⟩)) setup).sent =
      ["\x7b\"temperature\":24.5,\"humidity\":61.2,\"light\":1,\"timestamp\":\"2025-01-02 03:04:05\"\x7d"] :=
  ⟨by decide, by decide,
    (sendSensorData_valid_one_frame decimalLib (sampleInput (some ⟨5, 4, 3, 2, 0, 125⟩)) setup
      (by decide) (by decide)).trans (by decide)⟩

/-- C4 (evaluation at the failing input): from the state after `setup()`, where
the fan relay is off, one call of `sendSensorData` with the valid reading
24.5 / 61.2 leaves the light relay as it was and drives the fan relay high. -/
theorem sendSensorData_turns_fan_on :
    setup.fan = false ∧
    (sendSensorData decimalLib (sampleInput none) setup).light = setup.light ∧
    (sendSensorData decimalLib (sampleInput none) setup).fan = true := by
  decide

/-- C9: when `getLocalTime` fails, `getCurrentTime` returns the string `unknown`,
and `sendSensorData` with a valid reading still hands its one frame to
`webSocket.sendTXT`, the frame ending in `"timestamp":"unknown"}`. -/
theorem unknown_time_still_sends {F : Type} (fl : FloatLib F) (inp : SensorInput F) (s : State)
    (hc : inp.localTime = none)
    (ht : fl.isnan inp.temperature = false) (hh : fl.isnan inp.humidity = false) :
    getCurrentTime inp.localTime = "unknown" ∧
    (sendSensorData fl inp s).sent = s.sent ++
      ["\x7b\"temperature\":" ++ fl.mkString inp.temperature 1 ++ ",\"humidity\":"
        ++ fl.mkString inp.humidity 1 ++ ",\"light\":"
        ++ (if inp.lightRaw = HIGH then "1" else "0")
        ++ ",\"timestamp\":\"unknown\"\x7d"] := by
  refine ⟨by rw [hc]; rfl, ?_⟩
  rw [sendSensorData_of_valid fl inp s (by simp [ht, hh]), digitalWrite_sent, hc]
  simp only [sendTXT, getCurrentTime, String.append_assoc]
  rfl

theorem unknown_time_still_sends_witness :
    (sampleInput none).localTime = none ∧
    getCurrentTime (sampleInput none).localTime = "unknown" ∧
    (sendSensorData decimalLib (sampleInput none) setup).sent =
      ["\x7b\"temperature\":24.5,\"humidity\":61.2,\"light\":1,\"timestamp\":\"unknown\"\x7d"] :=
  ⟨rfl, (unknown_time_still_sends decimalLib (sampleInput none) setup rfl
      (by decide) (by decide)).1,
    ((unknown_time_still_sends decimalLib (sampleInput none) setup rfl
      (by decide) (by decide)).2).trans (by decide)⟩

/-! ## Command dispatch -/

theorem cString_of_no_nul (payload : String) (h : Char.ofNat 0 ∉ payload.data) :
    cString payload = payload := by
  unfold cString
  have : payload.data.takeWhile (fun c => c ≠ Char.ofNat 0) = payload.data := by
    rw [List.takeWhile_eq_self_iff]
    intro c hc
    simp only [ne_eq, decide_not, Bool.not_eq_true', decide_eq_false_iff_not]
    intro hEq
    exact h (hEq ▸ hc)
  rw [this]

/-- C3 (the claim as stated fails): the nine-byte text message made of `LIGHT_ON`
followed by one NUL byte is none of the six tokens, yet handling it as a
`WStype_TEXT` event from the state after `setup()` switches the light relay on. -/
theorem nul_terminated_payload_is_matched :
    "LIGHT_ON\x00" ∉ commandTokens ∧
    (webSocketEvent .WStype_TEXT "LIGHT_ON\x00" setup).light ≠ setup.light := by
  decide

/-- C3 (amended): a text message whose content up to its first NUL byte (the
whole message when it has none) is not exactly one of `AUTO_ON`, `AUTO_OFF`,
`LIGHT_ON`, `LIGHT_OFF`, `FAN_ON`, `FAN_OFF` leaves the whole state, and so the
light output, the fan output and `autoMode`, unchanged when handled as a
`WStype_TEXT` event. -/
theorem webSocketEvent_unrecognized (payload : String) (s : State)
    (h : cString payload ∉ commandTokens) :
    webSocketEvent .WStype_TEXT payload s = s := by
  simp only [commandTokens, List.mem_cons, List.mem_singleton, List.not_mem_nil, or_false,
    not_or] at h
  obtain ⟨h1, h2, h3, h4, h5, h6⟩ := h
  simp only [webSocketEvent, h1, h2, h3, h4, h5, h6, if_false]

theorem webSocketEvent_unrecognized_witness :
    (cString "FOO" ∉ commandTokens ∧ webSocketEvent .WStype_TEXT "FOO" setup = setup) ∧
    (cString "light_on" ∉ commandTokens ∧
      webSocketEvent .WStype_TEXT "light_on" setup = setup) ∧
    (cString "LIGHT" ∉ commandTokens ∧ webSocketEvent .WStype_TEXT "LIGHT" setup = setup) ∧
    (cString "LIGHT_ON " ∉ commandTokens ∧
      webSocketEvent .WStype_TEXT "LIGHT_ON " setup = setup) ∧
    (cString "ESP32_CONNECTED" ∉ commandTokens ∧
      webSocketEvent .WStype_TEXT "ESP32_CONNECTED" setup = setup) :=
  ⟨⟨by decide, webSocketEvent_unrecognized "FOO" setup (by decide)⟩,
   ⟨by decide, webSocketEvent_unrecognized "light_on" setup (by decide)⟩,
   ⟨by decide, webSocketEvent_unrecognized "LIGHT" setup (by decide)⟩,
   ⟨by decide, webSocketEvent_unrecognized "LIGHT_ON " setup (by decide)⟩,
   ⟨by decide, webSocketEvent_unrecognized "ESP32_CONNECTED" setup (by decide)⟩⟩

/-- C5: from every state, `LIGHT_ON` sets the light output to true and a
following `LIGHT_OFF` sets it to false, so the pair ends with the light off;
in the reverse order `LIGHT_OFF` sets it to false and the following `LIGHT_ON`
to true, so that pair ends with the light on. -/
theorem light_on_off_order (s : State) :
    (webSocketEvent .WStype_TEXT "LIGHT_ON" s).light = true ∧
    (webSocketEvent .WStype_TEXT "LIGHT_OFF" (webSocketEvent .WStype_TEXT "LIGHT_ON" s)).light
      = false ∧
    (dispatchAll ["LIGHT_ON", "LIGHT_OFF"] s).light = false ∧
    (webSocketEvent .WStype_TEXT "LIGHT_OFF" s).light = false ∧
    (dispatchAll ["LIGHT_OFF", "LIGHT_ON"] s).light = true := by
  have hon : cString "LIGHT_ON" = "LIGHT_ON" := by decide
  have hoff : cString "LIGHT_OFF" = "LIGHT_OFF" := by decide
  have e1 : ∀ t : State, (webSocketEvent .WStype_TEXT "LIGHT_ON" t).light = true := by
    intro t
    simp only [webSocketEvent, hon]
    rfl
  have e2 : ∀ t : State, (webSocketEvent .WStype_TEXT "LIGHT_OFF" t).light = false := by
    intro t
    simp only [webSocketEvent, hoff]
    rfl
  exact ⟨e1 s, e2 _, e2 _, e2 s, e1 _⟩

theorem webSocketEvent_auto (m : String) (s : State) (h : m = "AUTO_ON" ∨ m = "AUTO_OFF") :
    webSocketEvent .WStype_TEXT m s = { s with autoMode := decide (m = "AUTO_ON") } := by
  have hon : cString "AUTO_ON" = "AUTO_ON" := by decide
  have hoff : cString "AUTO_OFF" = "AUTO_OFF" := by decide
  have hne : ("AUTO_OFF" : String) ≠ "AUTO_ON" := by decide
  rcases h with rfl | rfl
  · simp only [webSocketEvent, hon, if_true, decide_True]
  · simp only [webSocketEvent, hoff, hne, if_false, if_true, decide_False]

theorem dispatchAll_auto_relays (messages : List String) (s : State)
    (h : ∀ m ∈ messages, m = "AUTO_ON" ∨ m = "AUTO_OFF") :
    (dispatchAll messages s).light = s.light ∧ (dispatchAll messages s).fan = s.fan := by
  induction messages generalizing s with
  | nil => exact ⟨rfl, rfl⟩
  | cons m ms ih =>
    have hm := h m (List.mem_cons_self m ms)
    have hms : ∀ x ∈ ms, x = "AUTO_ON" ∨ x = "AUTO_OFF" :=
      fun x hx => h x (List.mem_cons_of_mem m hx)
    have step := ih (webSocketEvent .WStype_TEXT m s) hms
    have hcons : dispatchAll (m :: ms) s = dispatchAll ms (webSocketEvent .WStype_TEXT m s) := rfl
    rw [hcons, step.1, step.2, webSocketEvent_auto m s hm]
    exact ⟨rfl, rfl⟩

theorem dispatchAll_concat (messages : List String) (m : String) (s : State) :
    dispatchAll (messages ++ [m]) s = webSocketEvent .WStype_TEXT m (dispatchAll messages s) := by
  unfold dispatchAll
  rw [List.foldl_append]
  rfl

/-- C6: from every state and for every finite sequence of `AUTO_ON` / `AUTO_OFF`
messages, the light and fan outputs after every initial part of the sequence
are the ones of the starting state, and `autoMode` after the whole sequence is
true when the last message was `AUTO_ON` and false when it was `AUTO_OFF`. -/
theorem auto_sequence_only_flips_flag (s : State) (messages : List String)
    (h : ∀ m ∈ messages, m = "AUTO_ON" ∨ m = "AUTO_OFF") :
    (∀ n, (dispatchAll (messages.take n) s).light = s.light ∧
          (dispatchAll (messages.take n) s).fan = s.fan) ∧
    (∀ m, messages.getLast? = some m →
          (dispatchAll messages s).autoMode = decide (m = "AUTO_ON")) := by
  constructor
  · intro n
    exact dispatchAll_auto_relays (messages.take n) s
      (fun m hm => h m (List.mem_of_mem_take hm))
  · intro m hm
    obtain ⟨ys, rfl⟩ := List.getLast?_eq_some_iff.mp hm
    have hmem : m = "AUTO_ON" ∨ m = "AUTO_OFF" := h m (by simp)
    rw [dispatchAll_concat, webSocketEvent_auto m _ hmem]

theorem auto_sequence_only_flips_flag_witness :
    (∀ m ∈ ["AUTO_ON", "AUTO_OFF", "AUTO_ON"], m = "AUTO_ON" ∨ m = "AUTO_OFF") ∧
    (dispatchAll (["AUTO_ON", "AUTO_OFF", "AUTO_ON"].take 2) setup).light = setup.light ∧
    (dispatchAll (["AUTO_ON", "AUTO_OFF", "AUTO_ON"].take 2) setup).fan = setup.fan ∧
    (dispatchAll ["AUTO_ON", "AUTO_OFF", "AUTO_ON"] setup).autoMode = true :=
  ⟨by decide,
   ((auto_sequence_only_flips_flag setup ["AUTO_ON", "AUTO_OFF", "AUTO_ON"] (by decide)).1 2).1,
   ((auto_sequence_only_flips_flag setup ["AUTO_ON", "AUTO_OFF", "AUTO_ON"] (by decide)).1 2).2,
   (auto_sequence_only_flips_flag setup ["AUTO_ON", "AUTO_OFF", "AUTO_ON"] (by decide)).2
     "AUTO_ON" rfl⟩

/-! ## The interval gate -/

theorem gateOpen_iff (now lastSendTime : Nat) :
    gateOpen now lastSendTime = true ↔
      3000 ≤ (now + 4294967296 - lastSendTime) % 4294967296 := by
  simp [gateOpen, sendInterval, ULONG_RANGE]

theorem webSocketEvent_lastSendTime (type : WStype_t) (payload : String) (s : State) :
    (webSocketEvent type payload s).lastSendTime = s.lastSendTime := by
  cases type
  case WStype_TEXT =>
    simp only [webSocketEvent]
    split_ifs <;> simp only [digitalWrite_lastSendTime]
  all_goals rfl

theorem webSocket_loop_lastSendTime (events : List (WStype_t × String)) (s : State) :
    (webSocket_loop events s).lastSendTime = s.lastSendTime := by
  induction events generalizing s with
  | nil => rfl
  | cons e es ih =>
    have hcons : webSocket_loop (e :: es) s = webSocket_loop es (webSocketEvent e.1 e.2 s) := rfl
    rw [hcons, ih, webSocketEvent_lastSendTime]

theorem fires_iff {F : Type} (t : Tick F) (s : State) :
    fires t s = true ↔
      3000 ≤ (t.millisGate + 4294967296 - s.lastSendTime) % 4294967296 := by
  unfold fires
  rw [webSocket_loop_lastSendTime, gateOpen_iff]

theorem loop_lastSendTime_of_fires {F : Type} (fl : FloatLib F) (t : Tick F) (s : State)
    (h : fires t s = true) : (loop fl t s).lastSendTime = t.millisAfter := by
  unfold fires at h
  simp only [loop, h, if_true]

theorem loop_of_not_fires {F : Type} (fl : FloatLib F) (t : Tick F) (s : State)
    (h : fires t s = false) : loop fl t s = webSocket_loop t.events s := by
  unfold fires at h
  simp only [loop, h, Bool.false_eq_true, if_false]

theorem loop_lastSendTime_of_not_fires {F : Type} (fl : FloatLib F) (t : Tick F) (s : State)
    (h : fires t s = false) : (loop fl t s).lastSendTime = s.lastSendTime := by
  rw [loop_of_not_fires fl t s h, webSocket_loop_lastSendTime]

/-- C10: the gate of line 92 is right across the wrap of the 32-bit `millis()`
counter.  If `lastSendTime` was recorded at true time `T` (so it holds `T` modulo
2^32) and the condition reads the counter `e` milliseconds later (so it reads
`T + e` modulo 2^32) with `e` below 2^32, then the pass reaches `sendSensorData`
exactly when `e` is at least 3000. -/
theorem gate_correct_across_wrap {F : Type} (t : Tick F) (s : State) (T e : Nat)
    (he : e < ULONG_RANGE)
    (hlast : s.lastSendTime = T % ULONG_RANGE)
    (hnow : t.millisGate = (T + e) % ULONG_RANGE) :
    fires t s = true ↔ sendInterval ≤ e := by
  rw [fires_iff, hlast, hnow]
  unfold ULONG_RANGE at *
  unfold sendInterval
  norm_num at *
  omega

theorem gate_correct_across_wrap_witness :
    (5000 < ULONG_RANGE ∧
      ({ setup with lastSendTime := 4294966296 } : State).lastSendTime
        = 4294966296 % ULONG_RANGE ∧
      (⟨[], 4000, sampleInput none, 4100⟩ : Tick Decimal1).millisGate
        = (4294966296 + 5000) % ULONG_RANGE) ∧
    fires (⟨[], 4000, sampleInput none, 4100⟩ : Tick Decimal1)
      { setup with lastSendTime := 4294966296 } = true :=
  ⟨⟨by decide, by decide, by decide⟩,
   (gate_correct_across_wrap (⟨[], 4000, sampleInput none, 4100⟩ : Tick Decimal1)
      { setup with lastSendTime := 4294966296 } 4294966296 5000
      (by decide) (by decide) (by decide)).mpr (by decide)⟩

/-! ## Spacing of consecutive calls -/

theorem readings_cons_of_fires {F : Type} (fl : FloatLib F) (t : Tick F) (ts : List (Tick F))
    (s : State) (h : fires t s = true) :
    readings fl (t :: ts) s = t.millisGate :: t.millisAfter :: readings fl ts (loop fl t s) := by
  simp only [readings, h, if_true]

theorem readings_cons_of_not_fires {F : Type} (fl : FloatLib F) (t : Tick F)
    (ts : List (Tick F)) (s : State) (h : fires t s = false) :
    readings fl (t :: ts) s = t.millisGate :: readings fl ts (loop fl t s) := by
  simp only [readings, h, Bool.false_eq_true, if_false]

theorem sendTimes_cons_of_fires {F : Type} (fl : FloatLib F) (t : Tick F) (ts : List (Tick F))
    (s : State) (h : fires t s = true) :
    sendTimes fl (t :: ts) s = t.millisGate :: sendTimes fl ts (loop fl t s) := by
  simp only [sendTimes, h, if_true]

theorem sendTimes_cons_of_not_fires {F : Type} (fl : FloatLib F) (t : Tick F)
    (ts : List (Tick F)) (s : State) (h : fires t s = false) :
    sendTimes fl (t :: ts) s = sendTimes fl ts (loop fl t s) := by
  simp only [sendTimes, h, Bool.false_eq_true, if_false]

/-- Once `lastSendTime` is not ahead of the clock, every later call happens at
least `sendInterval` after it, and the calls are spaced. -/
theorem sendTimes_after_last {F : Type} (fl : FloatLib F) (ticks : List (Tick F)) :
    ∀ (s : State) (p : Nat), s.lastSendTime ≤ p →
      List.Chain (fun a b => a ≤ b) p (readings fl ticks s) →
      (∀ x ∈ sendTimes fl ticks s, s.lastSendTime + sendInterval ≤ x) ∧
      List.Chain' (fun a b => a + sendInterval ≤ b) (sendTimes fl ticks s) := by
  induction ticks with
  | nil =>
    intro s p _ _
    exact ⟨fun x hx => absurd hx (List.not_mem_nil x), List.chain'_nil⟩
  | cons t ts ih =>
    intro s p hp hch
    by_cases hf : fires t s = true
    · rw [readings_cons_of_fires fl t ts s hf] at hch
      rw [sendTimes_cons_of_fires fl t ts s hf]
      obtain ⟨hpg, hch⟩ := List.chain_cons.mp hch
      obtain ⟨hga, hch⟩ := List.chain_cons.mp hch
      have hL := loop_lastSendTime_of_fires fl t s hf
      obtain ⟨hall, hsp⟩ := ih (loop fl t s) t.millisAfter (le_of_eq hL) hch
      rw [hL] at hall
      have hgate := (fires_iff t s).mp hf
      have hg : s.lastSendTime + sendInterval ≤ t.millisGate := by
        unfold sendInterval
        omega
      refine ⟨?_, ?_⟩
      · intro x hx
        rcases List.mem_cons.mp hx with rfl | hx
        · exact hg
        · have := hall x hx
          omega
      · refine List.Chain'.cons' hsp ?_
        intro y hy
        have := hall y (List.mem_of_mem_head? hy)
        omega
    · have hf : fires t s = false := by simpa using hf
      rw [readings_cons_of_not_fires fl t ts s hf] at hch
      rw [sendTimes_cons_of_not_fires fl t ts s hf]
      obtain ⟨hpg, hch⟩ := List.chain_cons.mp hch
      have hL := loop_lastSendTime_of_not_fires fl t s hf
      have := ih (loop fl t s) t.millisGate (by omega) hch
      rw [hL] at this
      exact this

/-- C7: for every sequence of passes through `loop()` whose `millis()` readings
are non-decreasing, whatever the starting state, the sensor values and the
inbound events, any two consecutive calls of `sendSensorData` happen at
`millis()` readings at least `sendInterval` (3000 ms) apart. -/
theorem consecutive_sends_spaced {F : Type} (fl : FloatLib F) (ticks : List (Tick F))
    (s : State) (hmono : List.Chain' (fun a b => a ≤ b) (readings fl ticks s)) :
    List.Chain' (fun a b => a + sendInterval ≤ b) (sendTimes fl ticks s) := by
  induction ticks generalizing s with
  | nil => exact List.chain'_nil
  | cons t ts ih =>
    by_cases hf : fires t s = true
    · rw [readings_cons_of_fires fl t ts s hf] at hmono
      rw [sendTimes_cons_of_fires fl t ts s hf]
      obtain ⟨hga, hch⟩ := List.chain'_cons.mp hmono
      have hL := loop_lastSendTime_of_fires fl t s hf
      obtain ⟨hall, hsp⟩ :=
        sendTimes_after_last fl ts (loop fl t s) t.millisAfter (le_of_eq hL) hch
      rw [hL] at hall
      refine List.Chain'.cons' hsp ?_
      intro y hy
      have := hall y (List.mem_of_mem_head? hy)
      omega
    · have hf : fires t s = false := by simpa using hf
      rw [readings_cons_of_not_fires fl t ts s hf] at hmono
      rw [sendTimes_cons_of_not_fires fl t ts s hf]
      exact ih (loop fl t s) hmono.tail

theorem consecutive_sends_spaced_witness :
    List.Chain' (fun a b => a ≤ b) (readings decimalLib steadyTicks setup) ∧
    sendTimes decimalLib steadyTicks setup = [3000, 7000, 10040] ∧
    List.Chain' (fun a b => a + sendInterval ≤ b) (sendTimes decimalLib steadyTicks setup) :=
  have hr : readings decimalLib steadyTicks setup
      = [3000, 3040, 4000, 5000, 6000, 7000, 7040, 10040, 10080] := by decide
  have hmono : List.Chain' (fun a b => a ≤ b) (readings decimalLib steadyTicks setup) := by
    rw [hr]
    simp
  ⟨hmono, by decide, consecutive_sends_spaced decimalLib steadyTicks setup hmono⟩

/-! ## Number of frames -/

theorem webSocketEvent_sent (type : WStype_t) (payload : String) (s : State)
    (h : type ≠ WStype_t.WStype_CONNECTED) : (webSocketEvent type payload s).sent = s.sent := by
  cases type
  case WStype_TEXT =>
    simp only [webSocketEvent]
    split_ifs <;> simp only [digitalWrite_sent]
  case WStype_CONNECTED => exact absurd rfl h
  all_goals rfl

theorem webSocket_loop_sent (events : List (WStype_t × String)) (s : State)
    (h : ∀ e ∈ events, e.1 ≠ WStype_t.WStype_CONNECTED) :
    (webSocket_loop events s).sent = s.sent := by
  induction events generalizing s with
  | nil => rfl
  | cons e es ih =>
    have hcons : webSocket_loop (e :: es) s = webSocket_loop es (webSocketEvent e.1 e.2 s) := rfl
    rw [hcons, ih _ (fun x hx => h x (List.mem_cons_of_mem e hx)),
      webSocketEvent_sent _ _ _ (h e (List.mem_cons_self e es))]

theorem loop_sent_of_fires {F : Type} (fl : FloatLib F) (t : Tick F) (s : State)
    (hf : fires t s = true)
    (ht : fl.isnan t.input.temperature = false) (hh : fl.isnan t.input.humidity = false)
    (hev : ∀ e ∈ t.events, e.1 ≠ WStype_t.WStype_CONNECTED) :
    (loop fl t s).sent.length = s.sent.length + 1 := by
  unfold fires at hf
  simp only [loop, hf, if_true]
  rw [sendSensorData_valid_sent fl t.input _ ht hh, webSocket_loop_sent _ _ hev]
  simp

theorem loop_sent_of_not_fires {F : Type} (fl : FloatLib F) (t : Tick F) (s : State)
    (hf : fires t s = false)
    (hev : ∀ e ∈ t.events, e.1 ≠ WStype_t.WStype_CONNECTED) :
    (loop fl t s).sent = s.sent := by
  rw [loop_of_not_fires fl t s hf, webSocket_loop_sent _ _ hev]

theorem run_sent_length {F : Type} (fl : FloatLib F) (ticks : List (Tick F)) :
    ∀ (s : State),
      (∀ t ∈ ticks, fl.isnan t.input.temperature = false ∧ fl.isnan t.input.humidity = false) →
      (∀ t ∈ ticks, ∀ e ∈ t.events, e.1 ≠ WStype_t.WStype_CONNECTED) →
      (run fl ticks s).sent.length = s.sent.length + (sendTimes fl ticks s).length := by
  induction ticks with
  | nil =>
    intro s _ _
    rfl
  | cons t ts ih =>
    intro s hv hev
    have hvt := hv t (List.mem_cons_self t ts)
    have hevt := hev t (List.mem_cons_self t ts)
    have hrec := ih (loop fl t s) (fun x hx => hv x (List.mem_cons_of_mem t hx))
      (fun x hx => hev x (List.mem_cons_of_mem t hx))
    have hrun : run fl (t :: ts) s = run fl ts (loop fl t s) := rfl
    rw [hrun, hrec]
    by_cases hf : fires t s = true
    · rw [sendTimes_cons_of_fires fl t ts s hf, loop_sent_of_fires fl t s hf hvt.1 hvt.2 hevt]
      simp only [List.length_cons]
      omega
    · have hf : fires t s = false := by simpa using hf
      rw [sendTimes_cons_of_not_fires fl t ts s hf, loop_sent_of_not_fires fl t s hf hevt]

/-- While the gate is closed at the previous reading, every later reading stays
below `lastSendTime + 3000` plus `3000 + 2 * d` for each call made so far, `d`
bounding the distance of consecutive readings. -/
theorem readings_lt_of_closed {F : Type} (fl : FloatLib F) (d : Nat) (ticks : List (Tick F)) :
    ∀ (s : State) (p : Nat), s.lastSendTime ≤ p → p < s.lastSendTime + 3000 →
      List.Chain (fun a b => a ≤ b ∧ b ≤ a + d) p (readings fl ticks s) →
      (∀ r ∈ readings fl ticks s, r < 4294967296) →
      ∀ r ∈ readings fl ticks s,
        r < s.lastSendTime + 3000 + (sendTimes fl ticks s).length * (3000 + 2 * d) := by
  induction ticks with
  | nil =>
    intro s p _ _ _ _ r hr
    exact absurd hr (List.not_mem_nil r)
  | cons t ts ih =>
    intro s p hLp hpL hch hrange r hr
    by_cases hf : fires t s = true
    · rw [readings_cons_of_fires fl t ts s hf] at hch hrange hr
      rw [sendTimes_cons_of_fires fl t ts s hf]
      obtain ⟨⟨hpg, hgp⟩, hch⟩ := List.chain_cons.mp hch
      obtain ⟨⟨hga, hag⟩, hch⟩ := List.chain_cons.mp hch
      have hL := loop_lastSendTime_of_fires fl t s hf
      have hrec := ih (loop fl t s) t.millisAfter (le_of_eq hL) (by omega) hch
        (fun x hx => hrange x (List.mem_cons_of_mem _ (List.mem_cons_of_mem _ hx)))
      rw [hL] at hrec
      rw [List.length_cons, Nat.add_mul, Nat.one_mul]
      generalize (sendTimes fl ts (loop fl t s)).length * (3000 + 2 * d) = X at hrec ⊢
      rcases List.mem_cons.mp hr with rfl | hr
      · omega
      · rcases List.mem_cons.mp hr with rfl | hr
        · omega
        · have := hrec r hr
          omega
    · have hf : fires t s = false := by simpa using hf
      rw [readings_cons_of_not_fires fl t ts s hf] at hch hrange hr
      rw [sendTimes_cons_of_not_fires fl t ts s hf]
      obtain ⟨⟨hpg, hgp⟩, hch⟩ := List.chain_cons.mp hch
      have hL := loop_lastSendTime_of_not_fires fl t s hf
      have hg := hrange t.millisGate (List.mem_cons_self _ _)
      have hclosed : ¬ 3000 ≤ (t.millisGate + 4294967296 - s.lastSendTime) % 4294967296 := by
        rw [← fires_iff t s, hf]
        simp
      have hrec := ih (loop fl t s) t.millisGate (by omega) (by omega) hch
        (fun x hx => hrange x (List.mem_cons_of_mem _ hx))
      rw [hL] at hrec
      generalize (sendTimes fl ts (loop fl t s)).length * (3000 + 2 * d) = X at hrec ⊢
      rcases List.mem_cons.mp hr with rfl | hr
      · omega
      · exact hrec r hr

/-- Every reading lies less than `3000` plus `3000 + 2 * d` per call after the
first reading. -/
theorem readings_lt_first {F : Type} (fl : FloatLib F) (d : Nat) (ticks : List (Tick F))
    (s : State)
    (hrange : ∀ r ∈ readings fl ticks s, r < 4294967296)
    (hlast : ∀ r ∈ (readings fl ticks s).head?, s.lastSendTime ≤ r)
    (hgap : List.Chain' (fun a b => a ≤ b ∧ b ≤ a + d) (readings fl ticks s)) :
    ∀ r ∈ readings fl ticks s,
      r < (readings fl ticks s).head?.getD 0 + 3000
        + (sendTimes fl ticks s).length * (3000 + 2 * d) := by
  cases ticks with
  | nil =>
    intro r hr
    exact absurd hr (List.not_mem_nil r)
  | cons t ts =>
    intro r hr
    by_cases hf : fires t s = true
    · rw [readings_cons_of_fires fl t ts s hf] at hgap hrange hr ⊢
      rw [sendTimes_cons_of_fires fl t ts s hf]
      obtain ⟨⟨hga, hag⟩, hch⟩ := List.chain'_cons.mp hgap
      have hL := loop_lastSendTime_of_fires fl t s hf
      have hrec := readings_lt_of_closed fl d ts (loop fl t s) t.millisAfter (le_of_eq hL)
        (by omega) hch
        (fun x hx => hrange x (List.mem_cons_of_mem _ (List.mem_cons_of_mem _ hx)))
      rw [hL] at hrec
      rw [List.length_cons, Nat.add_mul, Nat.one_mul]
      simp only [List.head?_cons, Option.getD_some]
      generalize (sendTimes fl ts (loop fl t s)).length * (3000 + 2 * d) = X at hrec ⊢
      rcases List.mem_cons.mp hr with rfl | hr
      · omega
      · rcases List.mem_cons.mp hr with rfl | hr
        · omega
        · have := hrec r hr
          omega
    · have hf : fires t s = false := by simpa using hf
      rw [readings_cons_of_not_fires fl t ts s hf] at hgap hrange hr hlast ⊢
      rw [sendTimes_cons_of_not_fires fl t ts s hf]
      have hL := loop_lastSendTime_of_not_fires fl t s hf
      have hg := hrange t.millisGate (List.mem_cons_self _ _)
      have hLg : s.lastSendTime ≤ t.millisGate := hlast t.millisGate (by simp)
      have hclosed : ¬ 3000 ≤ (t.millisGate + 4294967296 - s.lastSendTime) % 4294967296 := by
        rw [← fires_iff t s, hf]
        simp
      have hrec := readings_lt_of_closed fl d ts (loop fl t s) t.millisGate (by omega)
        (by omega) hgap
        (fun x hx => hrange x (List.mem_cons_of_mem _ hx))
      rw [hL] at hrec
      simp only [List.head?_cons, Option.getD_some]
      generalize (sendTimes fl ts (loop fl t s)).length * (3000 + 2 * d) = X at hrec ⊢
      rcases List.mem_cons.mp hr with rfl | hr
      · omega
      · have := hrec r hr
        omega

/-- C8 (the claim as stated fails): four passes after `setup()` with valid
readings and no connection event read the clock at 3500, 3600, 6599, 9598, 9700
and 12500 ms, a span of 9000 = 3000 * 3 ms, and emit two frames, not three. -/
theorem sparse_passes_emit_fewer_frames :
    (∀ t ∈ sparseTicks, decimalLib.isnan t.input.temperature = false ∧
      decimalLib.isnan t.input.humidity = false) ∧
    (∀ t ∈ sparseTicks, ∀ e ∈ t.events, e.1 ≠ WStype_t.WStype_CONNECTED) ∧
    readings decimalLib sparseTicks setup = [3500, 3600, 6599, 9598, 9700, 12500] ∧
    sendInterval * 3 ≤ span decimalLib sparseTicks setup ∧
    (run decimalLib sparseTicks setup).sent.length = setup.sent.length + 2 ∧
    ¬ (setup.sent.length + 3 ≤ (run decimalLib sparseTicks setup).sent.length) := by
  decide

/-- C8 (amended): take passes through `loop()` with valid sensor readings and no
connection event, started with `lastSendTime` not after the first `millis()`
reading, whose readings are 32-bit values, non-decreasing, any two consecutive
ones at most `d` ms apart.  If the readings span at least
`3000 * k + 2 * d * (k - 1)` ms from the first to the last, then at least `k`
telemetry frames are emitted during those passes. -/
theorem frames_at_least {F : Type} (fl : FloatLib F) (d k : Nat) (ticks : List (Tick F))
    (s : State)
    (hvalid : ∀ t ∈ ticks,
      fl.isnan t.input.temperature = false ∧ fl.isnan t.input.humidity = false)
    (hup : ∀ t ∈ ticks, ∀ e ∈ t.events, e.1 ≠ WStype_t.WStype_CONNECTED)
    (hrange : ∀ r ∈ readings fl ticks s, r < ULONG_RANGE)
    (hlast : ∀ r ∈ (readings fl ticks s).head?, s.lastSendTime ≤ r)
    (hgap : List.Chain' (fun a b => a ≤ b ∧ b ≤ a + d) (readings fl ticks s))
    (hspan : sendInterval * k + 2 * d * (k - 1) ≤ span fl ticks s) :
    s.sent.length + k ≤ (run fl ticks s).sent.length := by
  rw [run_sent_length fl ticks s hvalid hup]
  have hbound := readings_lt_first fl d ticks s hrange hlast hgap
  unfold span sendInterval at hspan
  by_contra hlt
  have hk : (sendTimes fl ticks s).length + 1 ≤ k := by omega
  have hmul : 2 * d * (sendTimes fl ticks s).length ≤ 2 * d * (k - 1) :=
    Nat.mul_le_mul_left _ (by omega)
  have hexp : (sendTimes fl ticks s).length * (3000 + 2 * d)
      = 3000 * (sendTimes fl ticks s).length + 2 * d * (sendTimes fl ticks s).length := by
    ring
  rw [hexp] at hbound
  generalize 2 * d * (sendTimes fl ticks s).length = A at hbound hmul
  generalize 2 * d * (k - 1) = B at hspan hmul
  cases hlastr : (readings fl ticks s).getLast? with
  | none =>
    rw [hlastr] at hspan
    simp only [Option.getD_none] at hspan
    omega
  | some r =>
    rw [hlastr] at hspan
    simp only [Option.getD_some] at hspan
    have := hbound r (List.mem_of_getLast?_eq_some hlastr)
    omega

theorem frames_at_least_witness :
    readings decimalLib denseTicks setup =
      [3000, 3020, 3500, 4000, 4500, 5000, 5500, 6000, 6500, 6520, 7000, 7500, 8000, 8500,
        9000, 9500, 10000, 10020] ∧
    sendInterval * 2 + 2 * 500 * (2 - 1) ≤ span decimalLib denseTicks setup ∧
    setup.sent.length + 2 ≤ (run decimalLib denseTicks setup).sent.length :=
  have hr : readings decimalLib denseTicks setup =
      [3000, 3020, 3500, 4000, 4500, 5000, 5500, 6000, 6500, 6520, 7000, 7500, 8000, 8500,
        9000, 9500, 10000, 10020] := by decide
  ⟨hr, by decide,
   frames_at_least decimalLib 500 2 denseTicks setup (by decide) (by decide)
     (by rw [hr]; decide) (by rw [hr]; decide) (by rw [hr]; simp) (by decide)⟩

end Esp32
